import Mathlib

/-!
Verification of the frame-relay server in app.py: a Flask application with a
background capture loop (video_stream_loop, lines 25-42), a multipart frame
generator (generate_frames, lines 45-56) and a source-switch endpoint
(start_stream, lines 64-88), all sharing the global dictionary app_state
(lines 15-21).  The definitions below are shallow embeddings of those
functions; all line numbers refer to app.py.
-/

/-- Encoded frame bytes (the result of cv2.imencode(...).tobytes() at
app.py line 33/36), abstracted as a string of bytes. -/
abbrev Bytes := String

/-- The pacing sleep between capture-loop iterations: time.sleep(1/30) at
app.py line 40 (also used by generate_frames at line 56). -/
def pacing : ℚ := 1/30

/-- The retry backoff after a failed read: time.sleep(2) at app.py line 39. -/
def backoff : ℚ := 2

/-! ## FrameBuffer: the shared latest-frame slot app_state output_frame -/

/-- publish: the single write to the shared slot, app.py line 36
(app_state output_frame := buffer.tobytes(), under the lock). -/
def publish (f : Bytes) (_slot : Option Bytes) : Option Bytes := some f

/-- snapshot: the read of the shared slot taken by generate_frames under the
lock, app.py lines 49-52 (returns none when output_frame is None). -/
def snapshot (slot : Option Bytes) : Option Bytes := slot

/-- An operation on the shared frame slot: a producer publish (line 36) or a
consumer snapshot (lines 49-52). -/
inductive FBOp where
  | pub (f : Bytes)
  | snap
deriving Repr, DecidableEq

/-- Effect of one slot operation on the slot: snapshot does not modify it. -/
def applyFB (slot : Option Bytes) : FBOp → Option Bytes
  | FBOp.pub f => publish f slot
  | FBOp.snap => snapshot slot

/-- Run a sequence of slot operations. -/
def runFB (slot : Option Bytes) (ops : List FBOp) : Option Bytes :=
  ops.foldl applyFB slot

/-- True when a sequence of slot operations contains no publish. -/
def noPub (ops : List FBOp) : Bool :=
  ops.all fun op =>
    match op with
    | FBOp.pub _ => false
    | FBOp.snap => true

theorem runFB_of_noPub (ops : List FBOp) (slot : Option Bytes)
    (h : noPub ops = true) : runFB slot ops = slot := by
  induction ops generalizing slot with
  | nil => rfl
  | cons op rest ih =>
    cases op with
    | pub f => simp [noPub] at h
    | snap =>
      have h' : noPub rest = true := by
        simpa [noPub] using h
      simpa [runFB, applyFB, snapshot] using ih (snapshot slot) h'

/-- Claim C4: the frame slot has last-write-wins semantics: snapshot before
any publish returns empty; after publish f every snapshot returns exactly f
until the next publish; and a snapshot never changes the slot, so a consumer
polling faster than the producer re-reads the same bytes. -/
theorem c4_last_write_wins (ops : List FBOp) (f : Bytes) (s t : Option Bytes)
    (h : noPub ops = true) :
    snapshot (runFB none ops) = none
    ∧ snapshot (runFB (publish f s) ops) = some f
    ∧ applyFB t FBOp.snap = t := by
  refine ⟨?_, ?_, rfl⟩
  · rw [runFB_of_noPub ops none h]; rfl
  · rw [runFB_of_noPub ops (publish f s) h]; rfl

/-- Witness for C4 at a concrete operation sequence. -/
theorem c4_last_write_wins_witness :
    noPub [FBOp.snap, FBOp.snap] = true
    ∧ (snapshot (runFB none [FBOp.snap, FBOp.snap]) = none
       ∧ snapshot (runFB (publish "jpeg0" none) [FBOp.snap, FBOp.snap]) = some "jpeg0"
       ∧ applyFB (some "jpeg1") FBOp.snap = some "jpeg1") :=
  ⟨by decide,
   c4_last_write_wins [FBOp.snap, FBOp.snap] "jpeg0" none (some "jpeg1") (by decide)⟩

/-! ## StreamSession: one pass of the generate_frames loop body -/

/-- One pass of the generate_frames loop body, app.py lines 48-56: when the
shared slot is empty the generator emits no chunk at all (continue at line
51); otherwise it yields the multipart chunk built at lines 54-55. -/
def generateChunk (slot : Option Bytes) : Option Bytes :=
  match slot with
  | none => none
  | some f => some ("--frame\r\nContent-Type: image/jpeg\r\n\r\n" ++ f ++ "\r\n")

/-- The multipart boundary marker of the chunk, app.py line 54. -/
def boundaryMarker : Bytes := "--frame\r\n"

/-- The content-type header line of the chunk, app.py line 55. -/
def contentTypeLine : Bytes := "Content-Type: image/jpeg\r\n"

/-- The blank line separating headers from payload, app.py line 55. -/
def blankLine : Bytes := "\r\n"

/-- The trailing separator after the payload, app.py line 55. -/
def trailingSeparator : Bytes := "\r\n"

/-- Claim C8: every emitted chunk is the boundary marker, the image/jpeg
content-type line, a blank line, the snapshot bytes and a trailing
separator; and when the slot is empty no chunk is emitted at all. -/
theorem c8_chunk_well_formed (f : Bytes) :
    generateChunk none = none
    ∧ generateChunk (some f) =
        some (boundaryMarker ++ contentTypeLine ++ blankLine ++ f ++ trailingSeparator) := by
  constructor
  · rfl
  · show some _ = some _
    have hpre : boundaryMarker ++ contentTypeLine ++ blankLine =
        "--frame\r\nContent-Type: image/jpeg\r\n\r\n" := by decide
    rw [show boundaryMarker ++ contentTypeLine ++ blankLine ++ f ++ trailingSeparator =
        (boundaryMarker ++ contentTypeLine ++ blankLine) ++ f ++ trailingSeparator from rfl,
      hpre]
    rfl

/-! ## CaptureLoop: one iteration of video_stream_loop -/

/-- Result of one iteration of video_stream_loop: whether the loop exited,
the new value of the shared slot, and the sleeps performed (in order). -/
structure IterResult where
  exited : Bool
  slot : Option Bytes
  sleeps : List ℚ
deriving Repr, DecidableEq

/-- One iteration of video_stream_loop, app.py lines 29-40: the loop exits
exactly when shutdown_flag is set (line 29); otherwise, when a capture is
present (line 30) it reads a frame (line 31); a successful read is encoded
(line 33) and on encode success published (lines 35-36); a failed read
sleeps the 2-unit backoff (line 39); every continuing branch ends with the
1/30 pacing sleep (line 40). -/
def loopIter (flagSet capPresent readOk encodeOk : Bool) (frame : Bytes)
    (slot : Option Bytes) : IterResult :=
  if flagSet then ⟨true, slot, []⟩
  else if capPresent then
    if readOk then
      if encodeOk then ⟨false, some frame, [pacing]⟩
      else ⟨false, slot, [pacing]⟩
    else ⟨false, slot, [backoff, pacing]⟩
  else ⟨false, slot, [pacing]⟩

/-- Claim C7: read and encode errors are non-fatal: a failed read keeps the
loop alive, waits the 2-unit backoff and retries; a failed encode skips the
frame and continues; the loop exits exactly when the cancellation flag is
set; and every continuing branch sleeps the 1/30 pacing interval. -/
theorem c7_loop_error_handling (fl cap r e : Bool) (f : Bytes) (s : Option Bytes) :
    loopIter true cap r e f s = ⟨true, s, []⟩
    ∧ loopIter false true false e f s = ⟨false, s, [backoff, pacing]⟩
    ∧ loopIter false true true false f s = ⟨false, s, [pacing]⟩
    ∧ loopIter false true true true f s = ⟨false, some f, [pacing]⟩
    ∧ loopIter false false r e f s = ⟨false, s, [pacing]⟩
    ∧ (loopIter fl cap r e f s).exited = fl := by
  refine ⟨rfl, rfl, rfl, rfl, rfl, ?_⟩
  cases fl <;> cases cap <;> cases r <;> cases e <;> rfl

/-! ## Timing of cancellation inside one capture-loop iteration -/

/-- Time of the next shutdown-flag check (app.py line 29) after a check at
time t: the read at line 31 takes r; a failed read adds the 2-unit backoff
of line 39; line 40 always adds the pacing sleep. -/
def nextCheckTime (t r : ℚ) (readFail : Bool) : ℚ :=
  t + r + (if readFail then backoff else 0) + pacing

/-- Time at which the loop observes a cancellation signaled at time c, when
its current flag check happened at time t: time.sleep at lines 39-40 is not
interruptible by the threading.Event, so a signal arriving after the check
at t is observed only at the next check. -/
def observeTime (t r c : ℚ) (readFail : Bool) : ℚ :=
  if c ≤ t then t else nextCheckTime t r readFail

/-- Counterexample to claim C3: the iteration checks the flag at time 0, its
read fails instantly (r = 0) and the 2-unit backoff begins; cancellation is
signaled at time 1/2, inside the backoff window; the loop observes it only
at time 2 + 1/30, which is not within one pacing interval (read 0 + 1/30)
of the cancellation. -/
theorem c3_cancel_in_backoff_counterexample :
    ¬ observeTime 0 0 (1/2) true ≤ 1/2 + 0 + pacing := by
  norm_num [observeTime, nextCheckTime, backoff, pacing]

/-- Claim C3 amended: a cancellation signaled during an iteration whose read
failed (in particular during the 2-unit backoff) is observed only at the end
of that iteration, i.e. within the read time plus the full backoff plus one
pacing interval of the cancellation, not within one pacing interval. -/
theorem c3_cancel_in_backoff_amended (t r c : ℚ) (h1 : t < c)
    (_h2 : c ≤ nextCheckTime t r true) :
    observeTime t r c true = nextCheckTime t r true
    ∧ observeTime t r c true ≤ c + r + backoff + pacing := by
  have hle : ¬ c ≤ t := not_le.mpr h1
  constructor
  · simp [observeTime, hle]
  · simp only [observeTime, hle, if_false, nextCheckTime, if_true]
    have := le_of_lt h1
    linarith

/-- Witness for the amended C3 at concrete times. -/
theorem c3_cancel_in_backoff_amended_witness :
    (0 : ℚ) < 1 ∧ (1 : ℚ) ≤ nextCheckTime 0 0 true
    ∧ (observeTime 0 0 1 true = nextCheckTime 0 0 true
       ∧ observeTime 0 0 1 true ≤ 1 + 0 + backoff + pacing) := by
  have h1 : (0 : ℚ) < 1 := by norm_num
  have h2 : (1 : ℚ) ≤ nextCheckTime 0 0 true := by
    norm_num [nextCheckTime, backoff, pacing]
  exact ⟨h1, h2, c3_cancel_in_backoff_amended 0 0 1 h1 h2⟩

/-! ## Lock discipline of the two loops -/

/-- Atomic events of one loop iteration, for the lock-discipline analysis:
lock acquire/release (the with-blocks at app.py lines 35 and 49), sleeps
(lines 39, 40, 56), the generator yield (lines 54-55), and the non-suspending
frame read, slot write and slot read. -/
inductive LEv where
  | acquire
  | release
  | sleepFor (d : ℚ)
  | yieldChunk
  | readFrame
  | writeSlot
  | readSlot
deriving Repr, DecidableEq

/-- An event is a suspension point when it sleeps or yields a chunk. -/
def isSuspend : LEv → Bool
  | LEv.sleepFor _ => true
  | LEv.yieldChunk => true
  | _ => false

/-- Events of one non-exiting iteration of video_stream_loop (app.py lines
30-40): the read at line 31, then on read+encode success the lock is taken
only around the slot write (lines 35-36); a failed read sleeps the backoff
(line 39) with no lock held; the pacing sleep (line 40) runs after the
with-block has ended. -/
def producerIterEvents (capPresent readOk encodeOk : Bool) : List LEv :=
  (if capPresent then
    [LEv.readFrame] ++
      (if readOk then
        (if encodeOk then [LEv.acquire, LEv.writeSlot, LEv.release] else [])
      else [LEv.sleepFor backoff])
  else []) ++ [LEv.sleepFor pacing]

/-- Events of one iteration of generate_frames (app.py lines 48-56): the
lock is taken around the slot read (lines 49-52); when the slot is empty the
continue at line 51 leaves the with-block, releasing the lock, and nothing
else happens; otherwise the yield (lines 54-55) and the pacing sleep (line
56) run after the with-block has ended. -/
def consumerIterEvents (framePresent : Bool) : List LEv :=
  if framePresent then
    [LEv.acquire, LEv.readSlot, LEv.release, LEv.yieldChunk, LEv.sleepFor pacing]
  else [LEv.acquire, LEv.readSlot, LEv.release]

/-- Checks that every suspension event in the list occurs at lock depth 0,
starting from the given depth. -/
def suspendFree : Nat → List LEv → Bool
  | _, [] => true
  | d, LEv.acquire :: rest => suspendFree (d + 1) rest
  | d, LEv.release :: rest => suspendFree (d - 1) rest
  | d, e :: rest => (!isSuspend e || d == 0) && suspendFree d rest

/-- No event of the list sleeps or yields while the lock is held. -/
def noSuspendWhileLocked (evs : List LEv) : Bool := suspendFree 0 evs

/-- Claim C9: in every branch of the capture loop and of a stream session,
every sleep, backoff and chunk yield happens with the frame-buffer lock not
held: the lock is held only around the slot write and the slot read. -/
theorem c9_no_suspend_while_locked (cap r e fp : Bool) :
    noSuspendWhileLocked (producerIterEvents cap r e) = true
    ∧ noSuspendWhileLocked (consumerIterEvents fp) = true := by
  constructor
  · cases cap <;> cases r <;> cases e <;> rfl
  · cases fp <;> rfl

/-! ## The interleaved system model: app_state, start_stream and loop threads

start_stream (app.py lines 64-88) is modeled as one atomic step: the real
handler runs while superseded loop threads may only be sleeping in their
backoff or pacing sleeps, and the single interleaving fact that matters is
whether the old thread observed the shutdown flag during the bounded
join(timeout=2) of line 73.  That outcome is the joinTimedOut parameter:
false means the old thread checked the flag (which was set at line 72) and
exited before the join returned; true means it did not check the flag within
the 2-unit bound, which is reachable because a backoff iteration lasts at
least 2 + 1/30 time units.  A loop-thread step is one whole iteration of
video_stream_loop, run atomically between the line-29 flag check and the
next one. -/

/-- Record of one cv2.VideoCapture object created at app.py line 78: the
requested url, whether isOpened() holds, and how often release() was called
on it. -/
structure CapRecord where
  url : String
  opened : Bool
  releaseCount : Nat
deriving Repr, DecidableEq

/-- The shared global state app_state (app.py lines 15-21), plus the log of
every capture object ever created (so releases can be counted).
videoCapture and captureThread are indices into capLog and threadsExited;
threadsExited holds one exited-flag per spawned loop thread, in spawn
order. -/
structure SysState where
  shutdownFlag : Bool
  capLog : List CapRecord
  videoCapture : Option Nat
  outputFrame : Option Bytes
  threadsExited : List Bool
  captureThread : Option Nat
deriving Repr, DecidableEq

/-- The initial app_state (app.py lines 15-21): no thread, no capture, no
frame, flag unset. -/
def initState : SysState := ⟨false, [], none, none, [], none⟩

/-- Exited-flag of thread i; a nonexistent thread counts as exited. -/
def getExited : List Bool → Nat → Bool
  | [], _ => true
  | b :: _, 0 => b
  | _ :: rest, i + 1 => getExited rest i

/-- Mark thread i as exited. -/
def setExited : List Bool → Nat → List Bool
  | [], _ => []
  | _ :: rest, 0 => true :: rest
  | b :: rest, i + 1 => b :: setExited rest i

/-- Capture record i of the log (default record when out of range). -/
def getCap : List CapRecord → Nat → CapRecord
  | [], _ => ⟨"", false, 0⟩
  | c :: _, 0 => c
  | _ :: rest, i + 1 => getCap rest i

/-- Increment the release count of capture record i. -/
def bumpRelease : List CapRecord → Nat → List CapRecord
  | [], _ => []
  | c :: rest, 0 => ⟨c.url, c.opened, c.releaseCount + 1⟩ :: rest
  | c :: rest, i + 1 => c :: bumpRelease rest i

/-- The guard of app.py line 71: capture_thread is not None and
capture_thread.is_alive(). -/
def threadAlive (s : SysState) : Bool :=
  match s.captureThread with
  | none => false
  | some i => !getExited s.threadsExited i

/-- app.py lines 74-75: if video_capture is set, release() it. -/
def releaseCap (s : SysState) : SysState :=
  match s.videoCapture with
  | none => s
  | some i => { s with capLog := bumpRelease s.capLog i }

/-- app.py line 73, capture_thread.join(timeout=2): on a clean join
(joinTimedOut = false) the capture thread has observed the set flag at its
line-29 check and exited; on a timed-out join it is unchanged and still
running. -/
def joinAndStop (s : SysState) (joinTimedOut : Bool) : SysState :=
  if joinTimedOut then s
  else
    match s.captureThread with
    | none => s
    | some i => { s with threadsExited := setExited s.threadsExited i }

/-- app.py lines 71-75: when a live capture thread exists, set the shutdown
flag (line 72), join it with the bounded timeout (line 73), and release the
current capture (lines 74-75) whether or not the join timed out. -/
def stopPhase (s : SysState) (joinTimedOut : Bool) : SysState :=
  if threadAlive s then
    releaseCap (joinAndStop { s with shutdownFlag := true } joinTimedOut)
  else s

/-- app.py lines 77-78: clear the shutdown flag, then create the new
cv2.VideoCapture (openOk abstracts whether isOpened() will hold) and store
it in video_capture. -/
def openPhase (s : SysState) (url : String) (openOk : Bool) : SysState :=
  { s with shutdownFlag := false,
           capLog := s.capLog ++ [⟨url, openOk, 0⟩],
           videoCapture := some s.capLog.length }

/-- The HTTP result of start_stream: the 200 success body (line 88) or the
400 error body (line 82). -/
inductive StartResult where
  | ok (status msg : String)
  | err (httpCode : Nat) (status msg : String)
deriving Repr, DecidableEq

/-- The start_stream handler, app.py lines 64-88: stop the old loop if one
is live (lines 71-75), clear the flag and open the new source (lines 77-78),
then either return the 400 error without spawning (lines 80-82) or spawn a
new loop thread, record it in capture_thread, and return success (lines
84-88). -/
def start_stream (s : SysState) (url : String) (openOk joinTimedOut : Bool) :
    SysState × StartResult :=
  let s2 := openPhase (stopPhase s joinTimedOut) url openOk
  if openOk then
    ({ s2 with threadsExited := s2.threadsExited ++ [false],
               captureThread := some s2.threadsExited.length },
     StartResult.ok "success" ("Stream started from " ++ url))
  else
    (s2, StartResult.err 400 "error" "Could not open video source.")

/-- One whole iteration of video_stream_loop (app.py lines 29-40) run by
thread i, atomically: an exited thread does nothing; otherwise, if the
shutdown flag is set the thread exits (line 29); otherwise it reads from the
global video_capture (lines 30-31) and, on read and encode success, publishes
the encoded frame into the shared slot (lines 32-36); a failed read or encode
changes nothing (lines 37-39). -/
def threadStep (s : SysState) (i : Nat) (readOk encodeOk : Bool)
    (frame : Bytes) : SysState :=
  if getExited s.threadsExited i then s
  else if s.shutdownFlag then { s with threadsExited := setExited s.threadsExited i }
  else
    match s.videoCapture with
    | none => s
    | some _ =>
      if readOk then
        if encodeOk then { s with outputFrame := some frame } else s
      else s

/-- One step of the interleaved system: either loop thread i runs one
iteration, or the start_stream handler runs once. -/
inductive Step where
  | thread (i : Nat) (readOk encodeOk : Bool) (frame : Bytes)
  | callStart (url : String) (openOk joinTimedOut : Bool)
deriving Repr, DecidableEq

/-- Effect of one step on the shared state. -/
def applyStep (s : SysState) : Step → SysState
  | Step.thread i r e f => threadStep s i r e f
  | Step.callStart u o j => (start_stream s u o j).1

/-- Run a schedule from a given state. -/
def runFrom (s : SysState) (sched : List Step) : SysState :=
  sched.foldl applyStep s

/-- Run a schedule from the initial state. -/
def runSched (sched : List Step) : SysState := runFrom initState sched

/-- Number of spawned loop threads that have not exited. -/
def liveCount (l : List Bool) : Nat := (l.filter fun b => !b).length

/-! ## Basic lemmas about the thread-exit list and the capture log -/

theorem length_setExited (l : List Bool) (i : Nat) :
    (setExited l i).length = l.length := by
  induction l generalizing i with
  | nil => rfl
  | cons b rest ih =>
    cases i with
    | zero => rfl
    | succ i => simp [setExited, ih]

theorem getExited_true_of_ge (l : List Bool) (i : Nat) (h : l.length ≤ i) :
    getExited l i = true := by
  induction l generalizing i with
  | nil => rfl
  | cons b rest ih =>
    cases i with
    | zero => simp at h
    | succ i =>
      simp only [List.length_cons, Nat.succ_le_succ_iff] at h
      exact ih i h

theorem lt_of_getExited_false (l : List Bool) (i : Nat)
    (h : getExited l i = false) : i < l.length := by
  by_contra hge
  rw [getExited_true_of_ge l i (Nat.le_of_not_lt hge)] at h
  simp at h

theorem getExited_setExited_self (l : List Bool) (k : Nat) :
    getExited (setExited l k) k = true := by
  induction l generalizing k with
  | nil => rfl
  | cons b rest ih =>
    cases k with
    | zero => rfl
    | succ k => exact ih k

theorem getExited_setExited_ne (l : List Bool) (k i : Nat) (h : i ≠ k) :
    getExited (setExited l k) i = getExited l i := by
  induction l generalizing k i with
  | nil => rfl
  | cons b rest ih =>
    cases k with
    | zero =>
      cases i with
      | zero => exact absurd rfl h
      | succ i => rfl
    | succ k =>
      cases i with
      | zero => rfl
      | succ i => exact ih k i (fun hik => h (congrArg Nat.succ hik))

theorem getExited_false_of_setExited_false (l : List Bool) (k i : Nat)
    (h : getExited (setExited l k) i = false) : getExited l i = false := by
  by_cases hik : i = k
  · subst hik
    rw [getExited_setExited_self] at h
    simp at h
  · rwa [getExited_setExited_ne l k i hik] at h

theorem getExited_append_lt (l : List Bool) (b : Bool) (i : Nat)
    (h : i < l.length) : getExited (l ++ [b]) i = getExited l i := by
  induction l generalizing i with
  | nil => simp at h
  | cons x rest ih =>
    cases i with
    | zero => rfl
    | succ i =>
      simp only [List.length_cons, Nat.succ_lt_succ_iff] at h
      exact ih i h

theorem getExited_append_self (l : List Bool) (b : Bool) :
    getExited (l ++ [b]) l.length = b := by
  induction l with
  | nil => rfl
  | cons x rest ih => exact ih

theorem liveCount_zero (l : List Bool) (h : ∀ i, getExited l i = true) :
    liveCount l = 0 := by
  induction l with
  | nil => rfl
  | cons b rest ih =>
    have hb : b = true := h 0
    subst hb
    simpa [liveCount, List.filter] using ih fun i => h (i + 1)

theorem liveCount_le_one (l : List Bool)
    (h : ∀ i j, getExited l i = false → getExited l j = false → i = j) :
    liveCount l ≤ 1 := by
  induction l with
  | nil => exact Nat.zero_le 1
  | cons b rest ih =>
    cases hb : b with
    | true =>
      subst hb
      have hcnt : liveCount (true :: rest) = liveCount rest := by
        simp [liveCount, List.filter]
      rw [hcnt]
      refine ih fun i j hi hj => ?_
      have := h (i + 1) (j + 1) (by simpa [getExited] using hi) (by simpa [getExited] using hj)
      omega
    | false =>
      subst hb
      have hrest : ∀ i, getExited rest i = true := by
        intro i
        by_contra hlive
        simp only [Bool.not_eq_true] at hlive
        have h0 : getExited (false :: rest) 0 = false := rfl
        have hi1 : getExited (false :: rest) (i + 1) = false := hlive
        have := h 0 (i + 1) h0 hi1
        omega
      have hcnt : liveCount (false :: rest) = liveCount rest + 1 := by
        simp [liveCount, List.filter]
      rw [hcnt, liveCount_zero rest hrest]

/-! ## Claim C1: at most one capture loop running concurrently -/

/-- The single-producer invariant: every live (non-exited) loop thread is
the one currently recorded in capture_thread. -/
def sysInvP (s : SysState) : Prop :=
  ∀ i, getExited s.threadsExited i = false → s.captureThread = some i

/-- A schedule is join-clean when every start_stream call in it has a join
(app.py line 73) that completes before the 2-unit timeout elapses. -/
def cleanJoins (sched : List Step) : Bool :=
  sched.all fun st =>
    match st with
    | Step.callStart _ _ j => !j
    | _ => true

/-- The claim-C1 predicate over a schedule: at every start_stream call that
spawns a loop (open succeeded), every previously spawned loop thread has
already exited by the time of the spawn at line 85, i.e. at the end of the
stop phase (lines 71-75). -/
def claimC1Holds : SysState → List Step → Bool
  | _, [] => true
  | s, Step.callStart url o j :: rest =>
    (if o then liveCount (stopPhase s j).threadsExited == 0 else true)
      && claimC1Holds (applyStep s (Step.callStart url o j)) rest
  | s, Step.thread i r e f :: rest =>
    claimC1Holds (applyStep s (Step.thread i r e f)) rest

theorem sysInvP_threadStep (s : SysState) (i : Nat) (r e : Bool) (f : Bytes)
    (h : sysInvP s) : sysInvP (threadStep s i r e f) := by
  unfold threadStep
  split
  · exact h
  · split
    · intro j hj
      exact h j (getExited_false_of_setExited_false _ i j hj)
    · split
      · exact h
      · split
        · split
          · exact h
          · exact h
        · exact h

theorem releaseCap_threadsExited (s : SysState) :
    (releaseCap s).threadsExited = s.threadsExited := by
  unfold releaseCap
  cases s.videoCapture <;> rfl

theorem releaseCap_captureThread (s : SysState) :
    (releaseCap s).captureThread = s.captureThread := by
  unfold releaseCap
  cases s.videoCapture <;> rfl

theorem releaseCap_outputFrame (s : SysState) :
    (releaseCap s).outputFrame = s.outputFrame := by
  unfold releaseCap
  cases s.videoCapture <;> rfl

theorem stopPhase_allExited (s : SysState) (h : sysInvP s) :
    ∀ i, getExited (stopPhase s false).threadsExited i = true := by
  intro i
  unfold stopPhase
  cases halive : threadAlive s with
  | false =>
    simp only [Bool.false_eq_true, if_false]
    by_contra hgi'
    simp only [Bool.not_eq_true] at hgi'
    have hct := h i hgi'
    simp [threadAlive, hct, hgi'] at halive
  | true =>
    simp only [if_true]
    cases hct : s.captureThread with
    | none => simp [threadAlive, hct] at halive
    | some k =>
      rw [releaseCap_threadsExited]
      simp only [joinAndStop, Bool.false_eq_true, if_false]
      by_contra hgi'
      simp only [Bool.not_eq_true] at hgi'
      have hcti := h i (getExited_false_of_setExited_false _ k i hgi')
      rw [hct] at hcti
      have hik : i = k := by injection hcti with hki; exact hki.symm
      subst hik
      rw [getExited_setExited_self] at hgi'
      simp at hgi'

theorem sysInvP_start_clean (s : SysState) (u : String) (o : Bool)
    (h : sysInvP s) : sysInvP ((start_stream s u o false).1) := by
  have hall := stopPhase_allExited s h
  unfold start_stream
  cases o with
  | false =>
    simp only [Bool.false_eq_true, if_false]
    intro i hi
    have hi' : getExited (stopPhase s false).threadsExited i = false := hi
    rw [hall i] at hi'
    simp at hi'
  | true =>
    simp only [if_true]
    intro i hi
    have hi' : getExited ((stopPhase s false).threadsExited ++ [false]) i = false := hi
    have hlen : (openPhase (stopPhase s false) u true).threadsExited.length = i := by
      rcases Nat.lt_trichotomy i (stopPhase s false).threadsExited.length with hlt | heq | hgt
      · rw [getExited_append_lt _ _ _ hlt, hall i] at hi'
        simp at hi'
      · exact heq.symm
      · have hge : ((stopPhase s false).threadsExited ++ [false]).length ≤ i := by
          simp only [List.length_append, List.length_cons, List.length_nil]
          omega
        rw [getExited_true_of_ge _ _ hge] at hi'
        simp at hi'
    show some (openPhase (stopPhase s false) u true).threadsExited.length = some i
    rw [hlen]

theorem claimC1_of_inv (sched : List Step) :
    ∀ s : SysState, cleanJoins sched = true → sysInvP s →
      claimC1Holds s sched = true ∧ sysInvP (runFrom s sched) := by
  induction sched with
  | nil => exact fun s _ h => ⟨rfl, h⟩
  | cons st rest ih =>
    intro s hclean hinv
    cases st with
    | thread i r e f =>
      have hcr : cleanJoins rest = true := by
        simpa [cleanJoins, List.all_cons] using hclean
      have hinv' := sysInvP_threadStep s i r e f hinv
      have hrest := ih (threadStep s i r e f) hcr hinv'
      exact ⟨by simpa [claimC1Holds, applyStep] using hrest.1,
             by simpa [runFrom, applyStep] using hrest.2⟩
    | callStart url o j =>
      have hjc : j = false ∧ cleanJoins rest = true := by
        simpa [cleanJoins, List.all_cons, Bool.and_eq_true] using hclean
      obtain ⟨hj, hcr⟩ := hjc
      subst hj
      have hall := stopPhase_allExited s hinv
      have hinv' := sysInvP_start_clean s url o hinv
      have hrest := ih ((start_stream s url o false).1) hcr hinv'
      constructor
      · show ((if o then liveCount (stopPhase s false).threadsExited == 0 else true)
          && claimC1Holds (applyStep s (Step.callStart url o false)) rest) = true
        rw [Bool.and_eq_true]
        refine ⟨?_, hrest.1⟩
        cases o
        · rfl
        · simp only [if_true]
          rw [liveCount_zero _ hall]
          rfl
      · simpa [runFrom, applyStep] using hrest.2

/-- Claim C1 amended: provided every bounded join of a start_stream call
completes before its 2-unit timeout (the superseded loop observes the set
shutdown flag and exits inside the join of line 73), at most one capture
loop is ever running: every spawn happens with all previously spawned loops
exited, and at most one loop thread is live in the reachable state.  The
unamended claim fails when a join times out, because line 77 then clears the
flag before the old loop observed it (see the counterexample). -/
theorem c1_single_producer_amended (sched : List Step)
    (h : cleanJoins sched = true) :
    claimC1Holds initState sched = true
    ∧ liveCount (runSched sched).threadsExited ≤ 1 := by
  have hinit : sysInvP initState := by
    intro i hi
    simp [initState, getExited] at hi
  have hmain := claimC1_of_inv sched initState h hinit
  refine ⟨hmain.1, ?_⟩
  refine liveCount_le_one _ fun i j hi hj => ?_
  have h1 := hmain.2 i hi
  have h2 := hmain.2 j hj
  rw [h1] at h2
  injection h2

/-- Witness for the amended C1 at a concrete join-clean schedule: start cam0,
let its loop publish one frame, then switch to cam1 with a clean join. -/
theorem c1_single_producer_amended_witness :
    cleanJoins [Step.callStart "cam0" true false,
      Step.thread 0 true true "f0",
      Step.callStart "cam1" true false] = true
    ∧ (claimC1Holds initState [Step.callStart "cam0" true false,
        Step.thread 0 true true "f0",
        Step.callStart "cam1" true false] = true
      ∧ liveCount (runSched [Step.callStart "cam0" true false,
          Step.thread 0 true true "f0",
          Step.callStart "cam1" true false]).threadsExited ≤ 1) :=
  ⟨by decide, c1_single_producer_amended _ (by decide)⟩

/-- The schedule refuting claim C1: start cam0 (spawns loop 0); call
start_stream for cam1 while loop 0 is inside an iteration (e.g. sleeping its
backoff), so the join of line 73 times out; line 77 clears the shutdown flag
before loop 0 ever checked it and line 85 spawns loop 1.  Loop 0 then checks
the (cleared) flag, keeps running, and both loops publish. -/
def c1Sched : List Step :=
  [Step.callStart "cam0" true false,
   Step.callStart "cam1" true true,
   Step.thread 0 true true "oldFrame",
   Step.thread 1 true true "newFrame"]

/-- Counterexample to claim C1 as stated: in schedule c1Sched the second
spawn happens while loop 0 has not exited (claimC1Holds is false), two loop
threads are live in the final state, and both publish into the shared slot
after the second spawn. -/
theorem c1_counterexample :
    claimC1Holds initState c1Sched = false
    ∧ liveCount (runSched c1Sched).threadsExited = 2
    ∧ (runFrom initState (c1Sched.take 3)).outputFrame = some "oldFrame"
    ∧ (runSched c1Sched).outputFrame = some "newFrame" := by
  refine ⟨?_, ?_, ?_, ?_⟩ <;> rfl

/-! ## Claim C5: release discipline of the capture objects -/

/-- Every capture object ever created has been released at most once. -/
def releasedAtMostOnce : List CapRecord → Bool
  | [] => true
  | c :: rest => (c.releaseCount == 0 || c.releaseCount == 1) && releasedAtMostOnce rest

/-- The capture currently referenced by video_capture is the newest one and
has not been released. -/
def currentUnreleased (s : SysState) : Bool :=
  match s.videoCapture with
  | none => s.capLog.isEmpty
  | some i => (i + 1 == s.capLog.length) && ((getCap s.capLog i).releaseCount == 0)

/-- The release invariant: no capture released twice, current one never
released. -/
def capInv (s : SysState) : Bool :=
  releasedAtMostOnce s.capLog && currentUnreleased s

theorem length_bumpRelease (l : List CapRecord) (i : Nat) :
    (bumpRelease l i).length = l.length := by
  induction l generalizing i with
  | nil => rfl
  | cons c rest ih =>
    cases i with
    | zero => rfl
    | succ i => simp [bumpRelease, ih]

theorem getCap_bumpRelease_self (l : List CapRecord) (i : Nat) (h : i < l.length) :
    getCap (bumpRelease l i) i =
      ⟨(getCap l i).url, (getCap l i).opened, (getCap l i).releaseCount + 1⟩ := by
  induction l generalizing i with
  | nil => simp at h
  | cons c rest ih =>
    cases i with
    | zero => rfl
    | succ i =>
      simp only [List.length_cons, Nat.succ_lt_succ_iff] at h
      exact ih i h

theorem getCap_append_lt (l : List CapRecord) (c : CapRecord) (i : Nat)
    (h : i < l.length) : getCap (l ++ [c]) i = getCap l i := by
  induction l generalizing i with
  | nil => simp at h
  | cons x rest ih =>
    cases i with
    | zero => rfl
    | succ i =>
      simp only [List.length_cons, Nat.succ_lt_succ_iff] at h
      exact ih i h

theorem getCap_append_self (l : List CapRecord) (c : CapRecord) :
    getCap (l ++ [c]) l.length = c := by
  induction l with
  | nil => rfl
  | cons x rest ih => exact ih

theorem releasedAtMostOnce_append (l : List CapRecord) (c : CapRecord)
    (h : releasedAtMostOnce l = true) (hc : c.releaseCount = 0) :
    releasedAtMostOnce (l ++ [c]) = true := by
  induction l with
  | nil => simp [releasedAtMostOnce, hc]
  | cons x rest ih =>
    rw [releasedAtMostOnce, Bool.and_eq_true] at h
    simpa [releasedAtMostOnce, Bool.and_eq_true, h.1] using ih h.2

theorem releasedAtMostOnce_bump (l : List CapRecord) (i : Nat)
    (h : releasedAtMostOnce l = true) (hi : (getCap l i).releaseCount = 0) :
    releasedAtMostOnce (bumpRelease l i) = true := by
  induction l generalizing i with
  | nil => rfl
  | cons c rest ih =>
    rw [releasedAtMostOnce, Bool.and_eq_true] at h
    cases i with
    | zero =>
      have hc : c.releaseCount = 0 := hi
      simp [bumpRelease, releasedAtMostOnce, Bool.and_eq_true, hc, h.2]
    | succ i =>
      have hr : (getCap rest i).releaseCount = 0 := hi
      simpa [bumpRelease, releasedAtMostOnce, Bool.and_eq_true, h.1] using ih i h.2 hr

theorem capInv_congr (s s' : SysState) (h1 : s'.capLog = s.capLog)
    (h2 : s'.videoCapture = s.videoCapture) : capInv s' = capInv s := by
  unfold capInv currentUnreleased
  rw [h1, h2]

theorem threadStep_capLog (s : SysState) (i : Nat) (r e : Bool) (f : Bytes) :
    (threadStep s i r e f).capLog = s.capLog := by
  unfold threadStep
  split
  · rfl
  · split
    · rfl
    · split
      · rfl
      · split
        · split <;> rfl
        · rfl

theorem threadStep_videoCapture (s : SysState) (i : Nat) (r e : Bool) (f : Bytes) :
    (threadStep s i r e f).videoCapture = s.videoCapture := by
  unfold threadStep
  split
  · rfl
  · split
    · rfl
    · split
      · rfl
      · split
        · split <;> rfl
        · rfl

theorem joinAndStop_capLog (s : SysState) (j : Bool) :
    (joinAndStop s j).capLog = s.capLog := by
  unfold joinAndStop
  split
  · rfl
  · split <;> rfl

theorem joinAndStop_videoCapture (s : SysState) (j : Bool) :
    (joinAndStop s j).videoCapture = s.videoCapture := by
  unfold joinAndStop
  split
  · rfl
  · split <;> rfl

theorem start_stream_capLog (s : SysState) (u : String) (o j : Bool) :
    ((start_stream s u o j).1).capLog = (stopPhase s j).capLog ++ [⟨u, o, 0⟩] := by
  unfold start_stream
  cases o <;> rfl

theorem stopPhase_capLog_released (s : SysState) (j : Bool)
    (hinv : capInv s = true) :
    releasedAtMostOnce (stopPhase s j).capLog = true := by
  rw [capInv, Bool.and_eq_true] at hinv
  unfold stopPhase
  split
  · rw [releaseCap]
    rw [joinAndStop_videoCapture]
    cases hvc : s.videoCapture with
    | none =>
      simp only
      rw [joinAndStop_capLog]
      exact hinv.1
    | some i =>
      simp only
      rw [joinAndStop_capLog]
      have hcur := hinv.2
      rw [currentUnreleased, hvc, Bool.and_eq_true] at hcur
      have hrc : (getCap s.capLog i).releaseCount = 0 := by
        have := hcur.2
        simpa using this
      exact releasedAtMostOnce_bump s.capLog i hinv.1 hrc
  · exact hinv.1

theorem capInv_start (s : SysState) (u : String) (o j : Bool)
    (hinv : capInv s = true) : capInv ((start_stream s u o j).1) = true := by
  have hrel := stopPhase_capLog_released s j hinv
  have hcap := start_stream_capLog s u o j
  have hvc : ((start_stream s u o j).1).videoCapture
      = some (stopPhase s j).capLog.length := by
    unfold start_stream
    cases o <;> rfl
  rw [capInv, Bool.and_eq_true]
  constructor
  · rw [hcap]
    exact releasedAtMostOnce_append _ _ hrel rfl
  · rw [currentUnreleased, hvc]
    simp only
    rw [hcap]
    rw [Bool.and_eq_true]
    constructor
    · simp [List.length_append]
    · rw [getCap_append_self]
      rfl

theorem capInv_step (s : SysState) (st : Step) (hinv : capInv s = true) :
    capInv (applyStep s st) = true := by
  cases st with
  | thread i r e f =>
    rw [applyStep, capInv_congr s (threadStep s i r e f)
      (threadStep_capLog s i r e f) (threadStep_videoCapture s i r e f)]
    exact hinv
  | callStart u o j => exact capInv_start s u o j hinv

theorem capInv_run (sched : List Step) : capInv (runSched sched) = true := by
  suffices h : ∀ s : SysState, capInv s = true → capInv (runFrom s sched) = true by
    exact h initState rfl
  induction sched with
  | nil => exact fun s h => h
  | cons st rest ih =>
    intro s h
    exact ih (applyStep s st) (capInv_step s st h)

theorem stopPhase_capLog_alive (s : SysState) (j : Bool) (i : Nat)
    (halive : threadAlive s = true) (hvc : s.videoCapture = some i) :
    (stopPhase s j).capLog = bumpRelease s.capLog i := by
  unfold stopPhase
  rw [halive]
  simp only [if_true]
  have hjvc : (joinAndStop { s with shutdownFlag := true } j).videoCapture = some i := by
    rw [joinAndStop_videoCapture]
    exact hvc
  unfold releaseCap
  rw [hjvc]
  simp only
  rw [joinAndStop_capLog]

/-- Claim C5 amended: across every schedule no capture object is ever
released more than once and the current capture is never released before a
switch (capInv); and a start_stream call made while a capture loop is live
releases the previous capture exactly once (its release count goes from 0 to
1), for every join outcome (including a timed-out join) and every open
outcome.  The unamended claim fails for a previous start attempt whose open
failed: no live loop exists then, lines 71-75 are skipped, and the failed
capture object is overwritten at line 78 without ever being released (see
the counterexample). -/
theorem c5_release_amended (sched : List Step) (s : SysState) (url : String)
    (o j : Bool) (i : Nat) (hinv : capInv s = true)
    (halive : threadAlive s = true) (hvc : s.videoCapture = some i) :
    capInv (runSched sched) = true
    ∧ (getCap s.capLog i).releaseCount = 0
    ∧ (getCap ((start_stream s url o j).1).capLog i).releaseCount = 1 := by
  rw [capInv, Bool.and_eq_true] at hinv
  have hcur := hinv.2
  rw [currentUnreleased, hvc] at hcur
  simp only [Bool.and_eq_true, beq_iff_eq] at hcur
  have hlen := hcur.1
  have hilt : i < s.capLog.length := by omega
  refine ⟨capInv_run sched, hcur.2, ?_⟩
  rw [start_stream_capLog, stopPhase_capLog_alive s j i halive hvc]
  rw [getCap_append_lt _ _ _ (by rw [length_bumpRelease]; exact hilt)]
  rw [getCap_bumpRelease_self _ _ hilt]
  simp [hcur.2]

/-- Witness for the amended C5: from the state reached by one successful
start of cam0 (loop 0 live, capture 0 unreleased), a switch to cam1 whose
join times out still releases capture 0 exactly once. -/
theorem c5_release_amended_witness :
    capInv (runSched [Step.callStart "cam0" true false]) = true
    ∧ threadAlive (runSched [Step.callStart "cam0" true false]) = true
    ∧ (runSched [Step.callStart "cam0" true false]).videoCapture = some 0
    ∧ (capInv (runSched []) = true
       ∧ (getCap (runSched [Step.callStart "cam0" true false]).capLog 0).releaseCount = 0
       ∧ (getCap ((start_stream (runSched [Step.callStart "cam0" true false])
            "cam1" true true).1).capLog 0).releaseCount = 1) :=
  ⟨by decide, by decide, by decide,
   c5_release_amended [] (runSched [Step.callStart "cam0" true false]) "cam1" true true 0
     (by decide) (by decide) (by decide)⟩

/-- Counterexample to claim C5 as stated: first start_stream for badsrc
fails to open (a capture object is still created at line 78 and stored in
video_capture); the next start_stream for cam1 finds no live thread, skips
lines 71-75, and overwrites video_capture: the badsrc capture ends with
release count 0 - it is never released, not released exactly once. -/
theorem c5_counterexample :
    (runSched [Step.callStart "badsrc" false false,
      Step.callStart "cam1" true false]).capLog
      = [⟨"badsrc", false, 0⟩, ⟨"cam1", true, 0⟩] := by
  rfl

/-! ## Claim C2: the failed-open error path -/

theorem stopPhase_threads_length (s : SysState) (j : Bool) :
    (stopPhase s j).threadsExited.length = s.threadsExited.length := by
  unfold stopPhase
  split
  · rw [releaseCap_threadsExited]
    unfold joinAndStop
    split
    · rfl
    · split
      · rfl
      · simp [length_setExited]
  · rfl

theorem stopPhase_captureThread (s : SysState) (j : Bool) :
    (stopPhase s j).captureThread = s.captureThread := by
  unfold stopPhase
  split
  · rw [releaseCap_captureThread]
    unfold joinAndStop
    split
    · rfl
    · split <;> rfl
  · rfl

theorem stopPhase_outputFrame (s : SysState) (j : Bool) :
    (stopPhase s j).outputFrame = s.outputFrame := by
  unfold stopPhase
  split
  · rw [releaseCap_outputFrame]
    unfold joinAndStop
    split
    · rfl
    · split <;> rfl
  · rfl

theorem stopPhase_threads_clean_alive (s : SysState) (k : Nat)
    (hct : s.captureThread = some k) (halive : threadAlive s = true) :
    (stopPhase s false).threadsExited = setExited s.threadsExited k := by
  unfold stopPhase
  rw [halive]
  simp only [if_true]
  rw [releaseCap_threadsExited]
  simp [joinAndStop, hct]

/-- Claim C2 amended: a start_stream call whose open fails returns exactly
the 400 error body, spawns no capture loop (the thread list length and
capture_thread are unchanged) and leaves the published frame slot untouched;
but it does NOT leave a previously running stream untouched: when a loop was
live, the call stops it (with a clean join the loop is no longer alive
afterwards) and releases its capture object. -/
theorem c2_error_path_amended (s : SysState) (url : String) (j : Bool) (i : Nat)
    (hvc : s.videoCapture = some i) (hilt : i < s.capLog.length) :
    (start_stream s url false j).2
      = StartResult.err 400 "error" "Could not open video source."
    ∧ ((start_stream s url false j).1).threadsExited.length = s.threadsExited.length
    ∧ ((start_stream s url false j).1).captureThread = s.captureThread
    ∧ ((start_stream s url false j).1).outputFrame = s.outputFrame
    ∧ (threadAlive s = true →
        threadAlive ((start_stream s url false false).1) = false
        ∧ (getCap ((start_stream s url false j).1).capLog i).releaseCount
            = (getCap s.capLog i).releaseCount + 1) := by
  refine ⟨rfl, ?_, ?_, ?_, ?_⟩
  · show (openPhase (stopPhase s j) url false).threadsExited.length = _
    exact stopPhase_threads_length s j
  · show (openPhase (stopPhase s j) url false).captureThread = _
    exact stopPhase_captureThread s j
  · show (openPhase (stopPhase s j) url false).outputFrame = _
    exact stopPhase_outputFrame s j
  · intro halive
    constructor
    · cases hct : s.captureThread with
      | none => rw [threadAlive, hct] at halive; simp at halive
      | some k =>
        show threadAlive (openPhase (stopPhase s false) url false) = false
        rw [threadAlive]
        have hctAfter : (openPhase (stopPhase s false) url false).captureThread = some k := by
          show (stopPhase s false).captureThread = some k
          rw [stopPhase_captureThread, hct]
        rw [hctAfter]
        have hthreads : (openPhase (stopPhase s false) url false).threadsExited
            = setExited s.threadsExited k := by
          show (stopPhase s false).threadsExited = _
          exact stopPhase_threads_clean_alive s k hct halive
        rw [hthreads]
        show (!getExited (setExited s.threadsExited k) k) = false
        rw [getExited_setExited_self]
        rfl
    · rw [start_stream_capLog, stopPhase_capLog_alive s j i halive hvc]
      rw [getCap_append_lt _ _ _ (by rw [length_bumpRelease]; exact hilt)]
      rw [getCap_bumpRelease_self _ _ hilt]

/-- Witness for the amended C2: from the state reached by one successful
start of cam0, a failed start of source bad returns the error, spawns
nothing, keeps the frame slot, stops loop 0 and releases capture 0. -/
theorem c2_error_path_amended_witness :
    (runSched [Step.callStart "cam0" true false]).videoCapture = some 0
    ∧ 0 < (runSched [Step.callStart "cam0" true false]).capLog.length
    ∧ ((start_stream (runSched [Step.callStart "cam0" true false]) "bad" false true).2
        = StartResult.err 400 "error" "Could not open video source."
      ∧ ((start_stream (runSched [Step.callStart "cam0" true false]) "bad" false true).1).threadsExited.length
          = (runSched [Step.callStart "cam0" true false]).threadsExited.length
      ∧ ((start_stream (runSched [Step.callStart "cam0" true false]) "bad" false true).1).captureThread
          = (runSched [Step.callStart "cam0" true false]).captureThread
      ∧ ((start_stream (runSched [Step.callStart "cam0" true false]) "bad" false true).1).outputFrame
          = (runSched [Step.callStart "cam0" true false]).outputFrame
      ∧ (threadAlive (runSched [Step.callStart "cam0" true false]) = true →
          threadAlive ((start_stream (runSched [Step.callStart "cam0" true false]) "bad" false false).1) = false
          ∧ (getCap ((start_stream (runSched [Step.callStart "cam0" true false]) "bad" false true).1).capLog 0).releaseCount
              = (getCap (runSched [Step.callStart "cam0" true false]).capLog 0).releaseCount + 1)) :=
  ⟨by decide, by decide,
   c2_error_path_amended (runSched [Step.callStart "cam0" true false]) "bad" true 0
     (by decide) (by decide)⟩

/-- Counterexample to claim C2 as stated: with loop 0 live on cam0, a
start_stream for a source that fails to open returns the 400 error, but the
previously running stream is not left untouched: loop 0 is stopped (its
exit flag becomes true), its capture is released, and video_capture now
holds the failed capture object. -/
theorem c2_error_counterexample :
    threadAlive (runSched [Step.callStart "cam0" true false]) = true
    ∧ (start_stream (runSched [Step.callStart "cam0" true false]) "bad" false false).2
        = StartResult.err 400 "error" "Could not open video source."
    ∧ ((start_stream (runSched [Step.callStart "cam0" true false]) "bad" false false).1).threadsExited
        = [true]
    ∧ (getCap ((start_stream (runSched [Step.callStart "cam0" true false]) "bad" false false).1).capLog 0).releaseCount = 1
    ∧ ((start_stream (runSched [Step.callStart "cam0" true false]) "bad" false false).1).videoCapture
        = some 1 := by
  refine ⟨?_, ?_, ?_, ?_, ?_⟩ <;> rfl

/-! ## Claim C6: internal ordering of one start_stream call -/

/-- The observable actions of the start_stream handler, app.py lines 71-88. -/
inductive SEv where
  | sigStop
  | joinOld
  | releaseOld
  | clearFlag
  | openSource
  | checkOpened
  | spawnLoop
  | respondError
  | respondSuccess
deriving Repr, DecidableEq

/-- Ordered action trace of one start_stream call, following app.py lines
71-88 top to bottom: when a live thread exists, set the shutdown flag (line
72), join the old thread (line 73) and, when a capture object exists,
release it (lines 74-75); then clear the flag (line 77), open the new
source (line 78) and check isOpened (line 80); finally either spawn the new
loop and respond success (lines 84-88) or respond the 400 error (line 82). -/
def startStreamTrace (alive capPresent openOk : Bool) : List SEv :=
  (if alive then
    [SEv.sigStop, SEv.joinOld] ++ (if capPresent then [SEv.releaseOld] else [])
  else []) ++
  [SEv.clearFlag, SEv.openSource, SEv.checkOpened] ++
  (if openOk then [SEv.spawnLoop, SEv.respondSuccess] else [SEv.respondError])

/-- Every occurrence of a is strictly before every occurrence of b: no a
occurs at or after any b. -/
def allBefore (a b : SEv) : List SEv → Bool
  | [] => true
  | x :: rest => (if x == b then !(rest.contains a) else true) && allBefore a b rest

/-- Claim C6: in every start_stream trace, signaling the old loop happens
before opening the new source, opening happens before spawning, the isOpened
check happens before spawning, and a spawn occurs only when the open
succeeded; moreover the trace contains a spawn exactly when start_stream
grows the thread list by one. -/
theorem c6_start_stream_ordering (a c o : Bool) (s : SysState) (u : String) (j : Bool) :
    allBefore SEv.sigStop SEv.openSource (startStreamTrace a c o) = true
    ∧ allBefore SEv.openSource SEv.spawnLoop (startStreamTrace a c o) = true
    ∧ allBefore SEv.checkOpened SEv.spawnLoop (startStreamTrace a c o) = true
    ∧ (!(startStreamTrace a c o).contains SEv.spawnLoop || o) = true
    ∧ ((startStreamTrace (threadAlive s) s.videoCapture.isSome o).contains SEv.spawnLoop = true
        ↔ ((start_stream s u o j).1).threadsExited.length = s.threadsExited.length + 1) := by
  refine ⟨?_, ?_, ?_, ?_, ?_⟩
  · cases a <;> cases c <;> cases o <;> rfl
  · cases a <;> cases c <;> cases o <;> rfl
  · cases a <;> cases c <;> cases o <;> rfl
  · cases a <;> cases c <;> cases o <;> rfl
  · cases o with
    | true =>
      have hcontains :
          (startStreamTrace (threadAlive s) s.videoCapture.isSome true).contains SEv.spawnLoop
            = true := by
        cases threadAlive s <;> cases s.videoCapture.isSome <;> rfl
      have hlen : ((start_stream s u true j).1).threadsExited.length
          = s.threadsExited.length + 1 := by
        show ((stopPhase s j).threadsExited ++ [false]).length = s.threadsExited.length + 1
        rw [List.length_append, stopPhase_threads_length]
        rfl
      exact ⟨fun _ => hlen, fun _ => hcontains⟩
    | false =>
      have hcontains :
          (startStreamTrace (threadAlive s) s.videoCapture.isSome false).contains SEv.spawnLoop
            = false := by
        cases threadAlive s <;> cases s.videoCapture.isSome <;> rfl
      have hlen : ((start_stream s u false j).1).threadsExited.length
          = s.threadsExited.length := by
        show (openPhase (stopPhase s j) u false).threadsExited.length = _
        exact stopPhase_threads_length s j
      constructor
      · intro hcon
        rw [hcontains] at hcon
        simp at hcon
      · intro hl
        rw [hlen] at hl
        omega

/-- Witness for C6 at a concrete branch assignment and state. -/
theorem c6_start_stream_ordering_witness :
    allBefore SEv.sigStop SEv.openSource (startStreamTrace true true true) = true
    ∧ allBefore SEv.openSource SEv.spawnLoop (startStreamTrace true true true) = true
    ∧ allBefore SEv.checkOpened SEv.spawnLoop (startStreamTrace true true true) = true
    ∧ (!(startStreamTrace true true true).contains SEv.spawnLoop || true) = true
    ∧ ((startStreamTrace (threadAlive initState) initState.videoCapture.isSome true).contains
          SEv.spawnLoop = true
        ↔ ((start_stream initState "cam0" true false).1).threadsExited.length
            = initState.threadsExited.length + 1) :=
  c6_start_stream_ordering true true true initState "cam0" false

/-! ## Claim C10: the frame slot is monotone once filled -/

theorem start_stream_outputFrame (s : SysState) (u : String) (o j : Bool) :
    ((start_stream s u o j).1).outputFrame = s.outputFrame := by
  unfold start_stream
  cases o with
  | true =>
    simp only [if_true]
    show (openPhase (stopPhase s j) u true).outputFrame = s.outputFrame
    exact stopPhase_outputFrame s j
  | false =>
    simp only [Bool.false_eq_true, if_false]
    exact stopPhase_outputFrame s j

/-- Claim C10: once a frame has been published the shared slot never returns
to empty: every system step (loop-thread iteration or start_stream call,
successful or failed) keeps the slot non-empty, and start_stream never
touches the slot at all, so viewers keep receiving the last frame of the old
source across a switch or a failed start. -/
theorem c10_slot_monotone (s : SysState) (st : Step) (u : String) (o j : Bool)
    (h : s.outputFrame.isSome = true) :
    (applyStep s st).outputFrame.isSome = true
    ∧ ((start_stream s u o j).1).outputFrame = s.outputFrame := by
  refine ⟨?_, start_stream_outputFrame s u o j⟩
  cases st with
  | callStart u2 o2 j2 =>
    show ((start_stream s u2 o2 j2).1).outputFrame.isSome = true
    rw [start_stream_outputFrame]
    exact h
  | thread i r e f =>
    show (threadStep s i r e f).outputFrame.isSome = true
    unfold threadStep
    split
    · exact h
    · split
      · exact h
      · split
        · exact h
        · split
          · split
            · rfl
            · exact h
          · exact h

/-- Witness for C10: from a state whose slot holds frame f0, a failed
start_stream call keeps the slot non-empty and unchanged. -/
theorem c10_slot_monotone_witness :
    (runSched [Step.callStart "cam0" true false,
      Step.thread 0 true true "f0"]).outputFrame.isSome = true
    ∧ ((applyStep (runSched [Step.callStart "cam0" true false,
          Step.thread 0 true true "f0"]) (Step.callStart "bad" false false)).outputFrame.isSome
          = true
       ∧ ((start_stream (runSched [Step.callStart "cam0" true false,
            Step.thread 0 true true "f0"]) "bad" false false).1).outputFrame
          = (runSched [Step.callStart "cam0" true false,
              Step.thread 0 true true "f0"]).outputFrame) :=
  ⟨by decide,
   c10_slot_monotone (runSched [Step.callStart "cam0" true false,
     Step.thread 0 true true "f0"]) (Step.callStart "bad" false false) "bad" false false
     (by decide)⟩
